import Mathlib

/-!
Shallow embedding of `bot.py` (Twitter-Twitch Notification Bot).

Strings are modelled as `List Char`.  Network interactions (HTTP fetches,
the Twitter/Threads posting calls, the Twitch metadata lookup) are modelled
as explicit input oracles; an exception raised inside a `try` block of the
source is modelled by an error constructor of the corresponding oracle
result type.  Side effects of one poll cycle / one push event are recorded
as an explicit event trace.
-/

namespace Bot

/-- Coerce a string literal to the `List Char` representation used throughout. -/
def str (s : String) : List Char := s.data

/-- The character `{` (written via its code point to keep it out of string literals). -/
def lbraceC : Char := Char.ofNat 123

/-- The character `}`. -/
def rbraceC : Char := Char.ofNat 125

/-- Python `str.lower()` restricted to ASCII, as used on Twitch login names. -/
def toLowerL (s : List Char) : List Char := s.map Char.toLower

/-- `p` is a leading segment of `s` (used to match a literal pattern at a position). -/
def lstartsWith : List Char → List Char → Bool
  | [], _ => true
  | _ :: _, [] => false
  | p :: ps, c :: cs => p = c && lstartsWith ps cs

/-- Python `pat in s`: `pat` occurs contiguously somewhere in `s`. -/
def lcontainsSub (pat : List Char) : List Char → Bool
  | [] => lstartsWith pat []
  | c :: cs => lstartsWith pat (c :: cs) || lcontainsSub pat cs

/-- Leftmost-match search: try the matcher at every start position, as
`re.search` does. -/
def searchPat (m : List Char → Option α) : List Char → Option α
  | [] => m []
  | c :: cs =>
    match m (c :: cs) with
    | some r => some r
    | none => searchPat m cs

/-- The character class `[a-zA-Z0-9_-]` of the video-id regexes in
`YouTubeMonitor.check_channel_live`. -/
def idChar (c : Char) : Bool := c.isAlpha || c.isDigit || c = '_' || c = '-'

/-- Take exactly `n` id-characters from the front, returning them and the rest. -/
def takeIdChars : Nat → List Char → Option (List Char × List Char)
  | 0, s => some ([], s)
  | _ + 1, [] => none
  | n + 1, c :: cs =>
    if idChar c then (takeIdChars n cs).map (fun p => (c :: p.1, p.2)) else none

/-- Match `watch\?v=([a-zA-Z0-9_-]{11})` at the current position
(`bot.py` line 218, applied to the final URL). -/
def matchWatch (s : List Char) : Option (List Char) :=
  if lstartsWith (str "watch?v=") s then
    (takeIdChars 11 (s.drop 8)).map (·.1)
  else none

/-- Match `"videoId":"([a-zA-Z0-9_-]{11})"` at the current position
(`bot.py` line 221, applied to the page body). -/
def matchVideoIdJson (s : List Char) : Option (List Char) :=
  if lstartsWith (str "\"videoId\":\"") s then
    match takeIdChars 11 (s.drop 11) with
    | some (v, rest) =>
      match rest with
      | '"' :: _ => some v
      | _ => none
    | none => none
  else none

/-- Content matched by `([^"]+)"`: the maximal run of non-quote characters,
required to be non-empty and followed by a closing quote. -/
def grabNonQuote : List Char → Option (List Char)
  | [] => none
  | c :: cs => if c = '"' then some [] else (grabNonQuote cs).map (c :: ·)

/-- Match `"ownerChannelName":"([^"]+)"` at the current position (`bot.py` line 229). -/
def matchOwner (s : List Char) : Option (List Char) :=
  if lstartsWith (str "\"ownerChannelName\":\"") s then
    match grabNonQuote (s.drop 20) with
    | some content => if content = [] then none else some content
    | none => none
  else none

/-- Match `"title":"([^"]+)"` at the current position (`bot.py` line 233). -/
def matchTitle (s : List Char) : Option (List Char) :=
  if lstartsWith (str "\"title\":\"") s then
    match grabNonQuote (s.drop 9) with
    | some content => if content = [] then none else some content
    | none => none
  else none

/-- The playability marker `"playabilityStatus":{"status":"OK"` checked at
`bot.py` line 237 (the brace written via `\x7b`). -/
def playOkMarker : List Char := str "\"playabilityStatus\":\x7b\"status\":\"OK\""

/-- The relevant parts of the HTTP response for a channel's `/live` page:
status code, the URL after redirects, and the body text. -/
structure HttpResponse where
  status : Nat
  finalUrl : List Char
  html : List Char
  deriving DecidableEq

/-- Outcome of the fetch inside `check_channel_live`'s `try`: either a
response or an exception (network error etc.). -/
inductive FetchResult
  | ok (r : HttpResponse)
  | exn
  deriving DecidableEq

/-- `YouTubeMonitor.check_channel_live` (`bot.py` lines 202-245): returns
`(video_id, channel_name, title)` when the channel is judged live, `none`
otherwise.  The surrounding `try/except` is the `FetchResult.exn` case. -/
def check_channel_live (channel_id : List Char) (fr : FetchResult) :
    Option (List Char × List Char × List Char) :=
  match fr with
  | .exn => none
  | .ok r =>
    if r.status ≠ 200 then none
    else
      let vm :=
        match searchPat matchWatch r.finalUrl with
        | some v => some v
        | none => searchPat matchVideoIdJson r.html
      match vm with
      | none => none
      | some video_id =>
        let channel_name := (searchPat matchOwner r.html).getD channel_id
        let title := (searchPat matchTitle r.html).getD (str "Live Stream")
        if lcontainsSub playOkMarker r.html then some (video_id, channel_name, title)
        else none

/-- `get_streamer_info` (`bot.py` lines 65-69): fan name and display name for
a streamer index, with out-of-bounds defaults `"fans"` and `f"Streamer{index}"`.
Returned in the source's order `(fanname, display_name)`. -/
def get_streamer_info (fannames displayNames : List (List Char)) (index : Nat) :
    List Char × List Char :=
  ((if h : index < fannames.length then fannames.get ⟨index, h⟩ else str "fans"),
   (if h : index < displayNames.length then displayNames.get ⟨index, h⟩
    else str "Streamer" ++ (Nat.repr index).data))

/-- Lookup in an insertion-ordered association list with Python-dict
semantics: a later insertion of the same key overwrites an earlier one. -/
def dictLookup (m : List (List Char × Nat)) (k : List Char) : Option Nat :=
  match m with
  | [] => none
  | (k', v) :: rest =>
    match dictLookup rest k with
    | some v' => some v'
    | none => if k' = k then some v else none

/-- Python `dict.get(k, d)`. -/
def dictGetD (m : List (List Char × Nat)) (k : List Char) (d : Nat) : Nat :=
  (dictLookup m k).getD d

/-- `TWITCH_CHANNEL_INDEX` (`bot.py` line 42): channel → index, keys lowercased. -/
def twitchChannelIndex (channels : List (List Char)) : List (List Char × Nat) :=
  channels.enum.map (fun p => (toLowerL p.2, p.1))

/-- `YOUTUBE_CHANNEL_INDEX` (`bot.py` line 52): channel → index, keys as given. -/
def youtubeChannelIndex (channels : List (List Char)) : List (List Char × Nat) :=
  channels.enum.map (fun p => (p.2, p.1))

/-- `TWITCH_CHANNEL_INDEX.get(channel_name.lower(), 0)` (`bot.py` line 351). -/
def twitchIdxOf (channels : List (List Char)) (channel_name : List Char) : Nat :=
  dictGetD (twitchChannelIndex channels) (toLowerL channel_name) 0

/-- `YOUTUBE_CHANNEL_INDEX.get(channel_id, 0)` (`bot.py` line 267). -/
def youtubeIdxOf (channels : List (List Char)) (channel_id : List Char) : Nat :=
  dictGetD (youtubeChannelIndex channels) channel_id 0

/-! ### Template renderer

The notification templates of the data model are strings with named
placeholders (`bot.py` lines 73-80, rendered by `str.format` at lines
271-277, 284-290, 355-361, 368-374).  The renderer is modelled for exactly
that placeholder language: literal text, `\x7b\x7b` / `\x7d\x7d` escapes, and
`\x7bname\x7d` fields looked up by name in the supplied mapping. -/

/-- One lexical piece of a template: a literal character or a named field. -/
inductive Tok
  | lit (c : Char)
  | field (name : List Char)
  deriving DecidableEq

/-- Scan a template into tokens.  The second argument accumulates the
(reversed) characters of a field name while inside braces; `none` as the
overall result models the `ValueError` Python raises on unbalanced braces. -/
def scanTmpl : List Char → Option (List Char) → Option (List Tok)
  | [], none => some []
  | [], some _ => none
  | c :: cs, some acc =>
    if c = rbraceC then (scanTmpl cs none).map (fun ts => Tok.field acc.reverse :: ts)
    else if c = lbraceC then none
    else scanTmpl cs (some (c :: acc))
  | c :: cs, none =>
    if c = lbraceC then
      match cs with
      | c2 :: cs2 =>
        if c2 = lbraceC then (scanTmpl cs2 none).map (fun ts => Tok.lit lbraceC :: ts)
        else scanTmpl (c2 :: cs2) (some [])
      | [] => none
    else if c = rbraceC then
      match cs with
      | c2 :: cs2 =>
        if c2 = rbraceC then (scanTmpl cs2 none).map (fun ts => Tok.lit rbraceC :: ts)
        else none
      | [] => none
    else (scanTmpl cs none).map (fun ts => Tok.lit c :: ts)

/-- The placeholder names referenced by a tokenised template. -/
def refNames (ts : List Tok) : List (List Char) :=
  ts.filterMap (fun t => match t with | .field n => some n | .lit _ => none)

/-- First-match lookup in the keyword-argument mapping (keyword names are unique). -/
def lookupAssoc (k : List Char) : List (List Char × List Char) → Option (List Char)
  | [] => none
  | (k', v) :: rest => if k' = k then some v else lookupAssoc k rest

/-- Rendering errors: a referenced placeholder missing from the mapping
(Python `KeyError`), or a malformed template (Python `ValueError`). -/
inductive FormatError
  | missingField (name : List Char)
  | badTemplate
  deriving DecidableEq

/-- Substitute a tokenised template. -/
def substToks (fields : List (List Char × List Char)) :
    List Tok → Except FormatError (List Char)
  | [] => .ok []
  | .lit c :: ts => (substToks fields ts).map (fun r => c :: r)
  | .field n :: ts =>
    match lookupAssoc n fields with
    | none => .error (.missingField n)
    | some v => (substToks fields ts).map (fun r => v ++ r)

/-- `template.format(**fields)` for the named-placeholder template language. -/
def renderTmpl (t : List Char) (fields : List (List Char × List Char)) :
    Except FormatError (List Char) :=
  match scanTmpl t none with
  | none => .error .badTemplate
  | some ts => substToks fields ts

/-! ### Primary sink -/

/-- The exception classes caught by `post_tweet` (`bot.py` lines 125-134):
`tweepy.errors.Forbidden`, `tweepy.errors.Unauthorized`,
`tweepy.errors.TweepyException`, and any other `Exception`. -/
inductive TweepyError
  | forbidden
  | unauthorized
  | tweepyOther
  | unexpected
  deriving DecidableEq

/-- `post_tweet` (`bot.py` lines 104-135): the `create_tweet` call either
returns a tweet id or raises one of the classified errors; every error is
caught, logged, and turned into `None` — nothing propagates past the
function's own boundary. -/
def post_tweet (r : Except TweepyError Nat) : Option Nat :=
  match r with
  | .ok tid => some tid
  | .error _ => none

/-! ### Configuration -/

/-- `DEFAULT_TWITCH_TEMPLATE` (`bot.py` line 73). -/
def defaultTwitchTemplate : List Char :=
  str "{display_name} is now live on Twitch! 🎮\n\n📺 {title}\n🎯 Playing: {game}\n\n👉 https://twitch.tv/{channel}"

/-- `DEFAULT_YOUTUBE_TEMPLATE` (`bot.py` line 76). -/
def defaultYoutubeTemplate : List Char :=
  str "{display_name} is now live on YouTube! 🔴\n\n📺 {title}\n\n👉 https://youtube.com/watch?v={video_id}"

/-- The module-level configuration read from the environment at startup
(`bot.py` lines 30-80): streamer lists, channel lists, and the four
notification templates (empty Threads template = that sink disabled). -/
structure BotConfig where
  fannames : List (List Char)
  displayNames : List (List Char)
  twitchChannels : List (List Char)
  youtubeChannels : List (List Char)
  twitchTemplate : List Char
  youtubeTemplate : List Char
  twitchThreadsTemplate : List Char
  youtubeThreadsTemplate : List Char
  deriving DecidableEq

/-! ### Poll-source monitor (`YouTubeMonitor`) -/

/-- The mutable state of `YouTubeMonitor`: `known_video_ids`
(`bot.py` line 199), pre-seeded with the scheduled streams. -/
structure PollState where
  known : List (List Char)
  deriving DecidableEq

/-- Observable steps of one poll cycle.  `startSecondary` records that the
fire-and-forget Threads task was created (`asyncio.create_task`,
`bot.py` line 292); `secondaryCompleted` is emitted only by the detached
task itself, never by the detection path. -/
inductive PollEvent
  | checked (ch : List Char)
  | addKnown (vid : List Char)
  | renderMsg (vid : List Char)
  | dispatchPrimary (vid : List Char) (ok : Bool)
  | startSecondary (vid : List Char)
  | secondaryCompleted (vid : List Char)
  deriving DecidableEq

/-- The keyword arguments passed to `format` for a YouTube notification
(`bot.py` lines 271-277): channel, display_name, fanname, title, video_id. -/
def ytFields (channel_name display_name fanname title vid : List Char) :
    List (List Char × List Char) :=
  [(str "channel", channel_name), (str "display_name", display_name),
   (str "fanname", fanname), (str "title", title), (str "video_id", vid)]

/-- The body of the new-video branch of `check_all_channels`
(`bot.py` lines 258-292): mark the id known, render, post the tweet
(errors swallowed by `post_tweet`), and, when a Threads template is
configured, render it and create the detached Threads task.  The third
component is true when a `format` call raised (the exception then escapes
`check_all_channels` and is only caught by the loop in `start`). -/
def dispatchDetection (cfg : BotConfig) (st : PollState)
    (ch vid channel_name title : List Char) (twr : Except TweepyError Nat) :
    PollState × List PollEvent × Bool :=
  let st' : PollState := ⟨vid :: st.known⟩
  let idx := youtubeIdxOf cfg.youtubeChannels ch
  let fd := get_streamer_info cfg.fannames cfg.displayNames idx
  let fields := ytFields channel_name fd.2 fd.1 title vid
  match renderTmpl cfg.youtubeTemplate fields with
  | .error _ => (st', [.addKnown vid], true)
  | .ok _ =>
    let ev1 : List PollEvent :=
      [.addKnown vid, .renderMsg vid, .dispatchPrimary vid (post_tweet twr).isSome]
    if cfg.youtubeThreadsTemplate = [] then (st', ev1, false)
    else
      match renderTmpl cfg.youtubeThreadsTemplate fields with
      | .error _ => (st', ev1, true)
      | .ok _ => (st', ev1 ++ [.startSecondary vid], false)

/-- One iteration of the per-channel loop of `check_all_channels`
(`bot.py` lines 255-292): check the channel, and when a new video id is
found run the dispatch branch. -/
def processChannel (cfg : BotConfig) (st : PollState) (ch : List Char)
    (fr : FetchResult) (twr : Except TweepyError Nat) :
    PollState × List PollEvent × Bool :=
  match check_channel_live ch fr with
  | none => (st, [.checked ch], false)
  | some (vid, channel_name, title) =>
    if vid ∈ st.known then (st, [.checked ch], false)
    else
      let r := dispatchDetection cfg st ch vid channel_name title twr
      (r.1, .checked ch :: r.2.1, r.2.2)

/-- `check_all_channels` over an explicit channel list, with the per-channel
fetch and tweet outcomes supplied as oracles.  A raised `format` error aborts
the remaining channels of the cycle (third component true). -/
def check_all_channels (cfg : BotConfig) (fetch : List Char → FetchResult)
    (tw : List Char → Except TweepyError Nat) :
    PollState → List (List Char) → PollState × List PollEvent × Bool
  | st, [] => (st, [], false)
  | st, ch :: rest =>
    let r1 := processChannel cfg st ch (fetch ch) (tw ch)
    if r1.2.2 then (r1.1, r1.2.1, true)
    else
      let r2 := check_all_channels cfg fetch tw r1.1 rest
      (r2.1, r1.2.1 ++ r2.2.1, r2.2.2)

/-- The polling loop of `YouTubeMonitor.start` (`bot.py` lines 308-314) over
a finite schedule of cycles, each with its own oracles: every cycle runs
`check_all_channels` under a `try` that swallows any escaped exception, so
every scheduled cycle produces a trace. -/
def youtubeLoop (cfg : BotConfig) :
    PollState →
    List ((List Char → FetchResult) × (List Char → Except TweepyError Nat)) →
    PollState × List (List PollEvent)
  | st, [] => (st, [])
  | st, (f, t) :: cycles =>
    let r := check_all_channels cfg f t st cfg.youtubeChannels
    let rest := youtubeLoop cfg r.1 cycles
    (rest.1, r.2.1 :: rest.2)

/-- The detached Threads tasks created during a cycle, run after the
detection path has already returned: one completion per started task. -/
def drainDetached (evs : List PollEvent) : List PollEvent :=
  evs.filterMap (fun e =>
    match e with
    | .startSecondary v => some (.secondaryCompleted v)
    | _ => none)

/-! ### Push-source monitor (`TwitchNotifier`) -/

/-- The stream object returned by `get_streams` for the channel:
`title`, and `game_name` which may be Python-falsy (`None` or `""`),
modelled as `none` / `some []`. -/
structure StreamData where
  title : List Char
  game_name : Option (List Char)
  deriving DecidableEq

/-- Python `x or d` for an optional string: the default when `x` is falsy. -/
def pyOrStr (v : Option (List Char)) (d : List Char) : List Char :=
  match v with
  | none => d
  | some s => if s = [] then d else s

/-- The title/game resolution of `on_stream_online` (`bot.py` lines 336-348):
a lookup exception or an absent stream object yields the placeholders
`("Live now!", "Unknown")`; a falsy `game_name` yields `"Unknown"`. -/
def streamMeta (r : Except Unit (Option StreamData)) : List Char × List Char :=
  match r with
  | .ok (some d) => (d.title, pyOrStr d.game_name (str "Unknown"))
  | .ok none => (str "Live now!", str "Unknown")
  | .error _ => (str "Live now!", str "Unknown")

/-- Observable steps of one push-event callback. -/
inductive TwitchEvent
  | streamStarted (ch : List Char)
  | metaResolved (title game : List Char)
  | renderT
  | dispatchPrimaryT (ok : Bool)
  | startSecondaryT
  | secondaryCompletedT
  deriving DecidableEq

/-- The keyword arguments passed to `format` for a Twitch notification
(`bot.py` lines 355-361): channel, display_name, title, game, fanname. -/
def twFields (channel_name display_name title game fanname : List Char) :
    List (List Char × List Char) :=
  [(str "channel", channel_name), (str "display_name", display_name),
   (str "title", title), (str "game", game), (str "fanname", fanname)]

/-- `TwitchNotifier.on_stream_online` (`bot.py` lines 330-376): resolve
best-effort metadata, look up the streamer by lowercased login, render and
post the tweet, then, when a Threads template is configured, render it and
create the detached Threads task.  The Bool is true when a `format` call
raised (the exception escapes the callback). -/
def on_stream_online (cfg : BotConfig) (channel_name : List Char)
    (meta : Except Unit (Option StreamData)) (twr : Except TweepyError Nat) :
    List TwitchEvent × Bool :=
  let tg := streamMeta meta
  let idx := twitchIdxOf cfg.twitchChannels channel_name
  let fd := get_streamer_info cfg.fannames cfg.displayNames idx
  let fields := twFields channel_name fd.2 tg.1 tg.2 fd.1
  match renderTmpl cfg.twitchTemplate fields with
  | .error _ => ([.streamStarted channel_name, .metaResolved tg.1 tg.2], true)
  | .ok _ =>
    let ev1 : List TwitchEvent :=
      [.streamStarted channel_name, .metaResolved tg.1 tg.2, .renderT,
       .dispatchPrimaryT (post_tweet twr).isSome]
    if cfg.twitchThreadsTemplate = [] then (ev1, false)
    else
      match renderTmpl cfg.twitchThreadsTemplate fields with
      | .error _ => (ev1, true)
      | .ok _ => (ev1 ++ [.startSecondaryT], false)

/-! ### Startup (`validate_env`, `TwitchNotifier.start`, `main`) -/

/-- The environment settings checked by `validate_env` (`bot.py` lines 85-93).
`os.getenv` yields `None` (falsy) when unset; an unset or empty setting is
modelled as the empty string. -/
structure EnvConfig where
  twitch_client_id : List Char
  twitch_client_secret : List Char
  twitch_channels_raw : List Char
  twitter_api_key : List Char
  twitter_api_secret : List Char
  twitter_access_token : List Char
  twitter_access_token_secret : List Char
  deriving DecidableEq

/-- The `required` name/value list of `validate_env` (`bot.py` lines 85-93). -/
def requiredEnv (cfg : EnvConfig) : List (List Char × List Char) :=
  [(str "TWITCH_CLIENT_ID", cfg.twitch_client_id),
   (str "TWITCH_CLIENT_SECRET", cfg.twitch_client_secret),
   (str "TWITCH_CHANNELS", cfg.twitch_channels_raw),
   (str "TWITTER_API_KEY", cfg.twitter_api_key),
   (str "TWITTER_API_SECRET", cfg.twitter_api_secret),
   (str "TWITTER_ACCESS_TOKEN", cfg.twitter_access_token),
   (str "TWITTER_ACCESS_TOKEN_SECRET", cfg.twitter_access_token_secret)]

/-- `missing` in `validate_env` (`bot.py` line 95). -/
def missingEnv (cfg : EnvConfig) : List (List Char) :=
  (requiredEnv cfg).filterMap (fun p => if p.2 = [] then some p.1 else none)

/-- A user object returned by `get_users` during startup resolution. -/
structure TwitchUser where
  login : List Char
  uid : List Char
  deriving DecidableEq

/-- Startup events of `main` / `TwitchNotifier.start`. -/
inductive MainEvent
  | exitProc (code : Nat)
  | pushStartBegin
  | warnedMissing (chs : List (List Char))
  | subscribedChannel (login : List Char)
  | pushListening
  | pollMonitorStarted
  deriving DecidableEq

/-- The resolution part of `TwitchNotifier.start` (`bot.py` lines 394-426):
zero resolved users exits with code 1; otherwise every resolved user is
subscribed, and configured channels that did not resolve are only warned
about.  Returns the events and the `broadcaster_ids` mapping built. -/
def twitchStart (channels : List (List Char)) (users : List TwitchUser) :
    List MainEvent × Option (List (List Char × List Char)) :=
  if users = [] then ([.exitProc 1], none)
  else
    let found := users.map (fun u => toLowerL u.login)
    let missing := channels.filter (fun ch => ¬ toLowerL ch ∈ found)
    ((if missing = [] then [] else [.warnedMissing missing])
       ++ users.map (fun u => MainEvent.subscribedChannel u.login)
       ++ [.pushListening],
     some (users.map (fun u => (u.login, u.uid))))

/-- The startup path of `main` (`bot.py` lines 441-467): `validate_env`
first (exit 1 on missing settings, before any monitor is constructed or
started), then `notifier.start()` (exit 1 when zero users resolve), then
the YouTube monitor task when YouTube channels are configured. -/
def mainStartup (cfg : EnvConfig) (channels : List (List Char))
    (users : List TwitchUser) (hasYoutube : Bool) : List MainEvent :=
  if missingEnv cfg ≠ [] then [.exitProc 1]
  else
    let r := twitchStart channels users
    .pushStartBegin ::
      (r.1 ++ match r.2 with
              | none => []
              | some _ => if hasYoutube then [.pollMonitorStarted] else [])

/-! ### Auxiliary predicates for the theorems -/

/-- Events that belong to the rendering/dispatch part of a detection. -/
def isDispatchEv : PollEvent → Bool
  | .renderMsg _ => true
  | .dispatchPrimary _ _ => true
  | .startSecondary _ => true
  | _ => false

/-- Forget the success flag of a primary dispatch (used to compare traces
produced under different primary-sink outcomes). -/
def eraseFlag : PollEvent → PollEvent
  | .dispatchPrimary v _ => .dispatchPrimary v false
  | e => e

/-- Forget the success flag of a primary dispatch in a push-event trace. -/
def eraseFlagT : TwitchEvent → TwitchEvent
  | .dispatchPrimaryT _ => .dispatchPrimaryT false
  | e => e

/-- Whether rendering succeeded. -/
def isOkR : Except FormatError (List Char) → Bool
  | .ok _ => true
  | .error _ => false

/-! ### Lemmas about one poll detection -/

theorem dispatchDetection_state (cfg : BotConfig) (st : PollState)
    (ch vid nm tl : List Char) (twr : Except TweepyError Nat) :
    (dispatchDetection cfg st ch vid nm tl twr).1 = ⟨vid :: st.known⟩ := by
  unfold dispatchDetection
  dsimp only
  repeat' split
  all_goals rfl

theorem dispatchDetection_head (cfg : BotConfig) (st : PollState)
    (ch vid nm tl : List Char) (twr : Except TweepyError Nat) :
    (dispatchDetection cfg st ch vid nm tl twr).2.1[0]? = some (.addKnown vid) := by
  unfold dispatchDetection
  dsimp only
  repeat' split
  all_goals rfl

theorem dispatchDetection_dispatch_mem (cfg : BotConfig) (st : PollState)
    (ch vid nm tl : List Char) (twr : Except TweepyError Nat) (v : List Char) (b : Bool)
    (h : PollEvent.dispatchPrimary v b ∈ (dispatchDetection cfg st ch vid nm tl twr).2.1) :
    v = vid := by
  unfold dispatchDetection at h
  dsimp only at h
  repeat' split at h
  all_goals simp_all

theorem dispatchDetection_startSec_mem (cfg : BotConfig) (st : PollState)
    (ch vid nm tl : List Char) (twr : Except TweepyError Nat) (v : List Char)
    (h : PollEvent.startSecondary v ∈ (dispatchDetection cfg st ch vid nm tl twr).2.1) :
    v = vid := by
  unfold dispatchDetection at h
  dsimp only at h
  repeat' split at h
  all_goals simp_all

theorem dispatchDetection_no_completed (cfg : BotConfig) (st : PollState)
    (ch vid nm tl : List Char) (twr : Except TweepyError Nat) (v : List Char) :
    PollEvent.secondaryCompleted v ∉ (dispatchDetection cfg st ch vid nm tl twr).2.1 := by
  unfold dispatchDetection
  dsimp only
  repeat' split
  all_goals simp

theorem processChannel_known (cfg : BotConfig) (st : PollState) (ch : List Char)
    (fr : FetchResult) (twr : Except TweepyError Nat) (vid : List Char)
    (h : vid ∈ st.known) :
    vid ∈ (processChannel cfg st ch fr twr).1.known := by
  unfold processChannel
  split
  · exact h
  · split
    · exact h
    · rw [dispatchDetection_state]
      exact List.mem_cons_of_mem _ h

theorem processChannel_no_dispatch_of_known (cfg : BotConfig) (st : PollState)
    (ch : List Char) (fr : FetchResult) (twr : Except TweepyError Nat) (vid : List Char)
    (h : vid ∈ st.known) :
    (∀ b, PollEvent.dispatchPrimary vid b ∉ (processChannel cfg st ch fr twr).2.1) ∧
    PollEvent.startSecondary vid ∉ (processChannel cfg st ch fr twr).2.1 := by
  unfold processChannel
  split
  · simp
  · rename_i vnt heq
    split
    · simp
    · rename_i hnotmem
      constructor
      · intro b hmem
        simp only [List.mem_cons] at hmem
        rcases hmem with hc | hmem
        · exact PollEvent.noConfusion hc
        · exact hnotmem (dispatchDetection_dispatch_mem _ _ _ _ _ _ _ _ _ hmem ▸ h)
      · intro hmem
        simp only [List.mem_cons] at hmem
        rcases hmem with hc | hmem
        · exact PollEvent.noConfusion hc
        · exact hnotmem (dispatchDetection_startSec_mem _ _ _ _ _ _ _ _ hmem ▸ h)

theorem processChannel_no_completed (cfg : BotConfig) (st : PollState)
    (ch : List Char) (fr : FetchResult) (twr : Except TweepyError Nat) (v : List Char) :
    PollEvent.secondaryCompleted v ∉ (processChannel cfg st ch fr twr).2.1 := by
  unfold processChannel
  split
  · simp
  · split
    · simp
    · intro hmem
      simp only [List.mem_cons] at hmem
      rcases hmem with hc | hmem
      · exact PollEvent.noConfusion hc
      · exact dispatchDetection_no_completed _ _ _ _ _ _ _ _ hmem

theorem check_all_channels_no_completed (cfg : BotConfig)
    (fetch : List Char → FetchResult) (tw : List Char → Except TweepyError Nat)
    (st : PollState) (chans : List (List Char)) (v : List Char) :
    PollEvent.secondaryCompleted v ∉ (check_all_channels cfg fetch tw st chans).2.1 := by
  induction chans generalizing st with
  | nil => simp [check_all_channels]
  | cons ch rest ih =>
    unfold check_all_channels
    dsimp only
    split
    · exact processChannel_no_completed _ _ _ _ _ _
    · intro hmem
      rcases List.mem_append.mp hmem with hl | hr
      · exact processChannel_no_completed _ _ _ _ _ _ hl
      · exact ih _ hr

/-! ### Concrete objects used by the witnesses -/

/-- A small configuration: one Twitch channel, one YouTube channel, short
templates, both Threads sinks enabled. -/
def sampleCfg : BotConfig :=
  ⟨[str "army"], [str "Alice"], [str "alice"], [str "UCx"],
   str "{display_name}: {title} ({game})", str "{display_name}: {title} {video_id}",
   str "t: {title}", str "y: {video_id}"⟩

/-- A live-page response whose final URL redirects to
`watch?v=abc12345678` and whose body carries the playability-OK marker. -/
def liveResp : HttpResponse :=
  ⟨200, str "https://www.youtube.com/watch?v=abc12345678", playOkMarker⟩

/-- A response whose body contains a plausible `"videoId":"…"` pattern but
lacks the playability-OK marker. -/
def noMarkerResp : HttpResponse :=
  ⟨200, str "https://www.youtube.com/channel/UCx/live",
   str "xx\"videoId\":\"abc12345678\"yy"⟩

/-! ### C1 -/

/-- C1: a video identifier already present in `known_video_ids` before a
poll cycle starts is never dispatched to the primary sink and never handed
to the secondary sink during that cycle, whatever every channel's live page
resolves to. -/
theorem c1_preseeded_id_never_dispatched (cfg : BotConfig)
    (fetch : List Char → FetchResult) (tw : List Char → Except TweepyError Nat)
    (st : PollState) (chans : List (List Char)) (vid : List Char)
    (h : vid ∈ st.known) :
    (∀ b, PollEvent.dispatchPrimary vid b ∉ (check_all_channels cfg fetch tw st chans).2.1) ∧
    PollEvent.startSecondary vid ∉ (check_all_channels cfg fetch tw st chans).2.1 := by
  induction chans generalizing st with
  | nil => simp [check_all_channels]
  | cons ch rest ih =>
    unfold check_all_channels
    dsimp only
    split
    · exact processChannel_no_dispatch_of_known cfg st ch (fetch ch) (tw ch) vid h
    · have h1 := processChannel_no_dispatch_of_known cfg st ch (fetch ch) (tw ch) vid h
      have h2 := ih _ (processChannel_known cfg st ch (fetch ch) (tw ch) vid h)
      constructor
      · intro b hmem
        rcases List.mem_append.mp hmem with hl | hr
        · exact h1.1 b hl
        · exact h2.1 b hr
      · intro hmem
        rcases List.mem_append.mp hmem with hl | hr
        · exact h1.2 hl
        · exact h2.2 hr

/-- C1 witness: the spec scenario — the set pre-seeded with `"abc12345678"`,
the cycle's live page redirecting to `watch?v=abc12345678`; the cycle's
whole trace is the bare channel visit, with zero dispatches. -/
theorem c1_preseeded_id_never_dispatched_witness :
    (check_all_channels sampleCfg (fun _ => .ok liveResp) (fun _ => .ok 7)
        ⟨[str "abc12345678"]⟩ sampleCfg.youtubeChannels).2.1 = [.checked (str "UCx")] ∧
    ∀ b, PollEvent.dispatchPrimary (str "abc12345678") b ∉
        (check_all_channels sampleCfg (fun _ => .ok liveResp) (fun _ => .ok 7)
          ⟨[str "abc12345678"]⟩ sampleCfg.youtubeChannels).2.1 :=
  ⟨by decide,
   (c1_preseeded_id_never_dispatched sampleCfg (fun _ => .ok liveResp) (fun _ => .ok 7)
     ⟨[str "abc12345678"]⟩ sampleCfg.youtubeChannels (str "abc12345678") (by decide)).1⟩

/-! ### C2 -/

theorem check_channel_live_none_of_no_marker (ch : List Char) (resp : HttpResponse)
    (h : lcontainsSub playOkMarker resp.html = false) :
    check_channel_live ch (.ok resp) = none := by
  unfold check_channel_live
  dsimp only
  repeat' split
  all_goals simp_all

/-- C2: when the fetched body lacks the playability-OK marker,
`check_channel_live` reports "not live", so the candidate id is neither
added to `known_video_ids` nor dispatched to any sink — even when a
plausible video-id pattern is present. -/
theorem c2_no_marker_no_add_no_dispatch (cfg : BotConfig) (st : PollState)
    (ch : List Char) (resp : HttpResponse) (twr : Except TweepyError Nat)
    (h : lcontainsSub playOkMarker resp.html = false) :
    check_channel_live ch (.ok resp) = none ∧
    processChannel cfg st ch (.ok resp) twr = (st, [.checked ch], false) := by
  have hc := check_channel_live_none_of_no_marker ch resp h
  refine ⟨hc, ?_⟩
  unfold processChannel
  rw [hc]

/-- C2 witness: a body carrying the plausible pattern `"videoId":"abc12345678"`
but no playability marker — the pattern is found, yet the channel step leaves
the known set untouched and dispatches nothing. -/
theorem c2_no_marker_no_add_no_dispatch_witness :
    searchPat matchVideoIdJson noMarkerResp.html = some (str "abc12345678") ∧
    processChannel sampleCfg ⟨[]⟩ (str "UCx") (.ok noMarkerResp) (.ok 7)
      = (⟨[]⟩, [.checked (str "UCx")], false) :=
  ⟨by decide,
   (c2_no_marker_no_add_no_dispatch sampleCfg ⟨[]⟩ (str "UCx") noMarkerResp (.ok 7)
     (by decide)).2⟩

/-! ### C3 -/

theorem processChannel_eq_of_new (cfg : BotConfig) (st : PollState)
    (ch : List Char) (fr : FetchResult) (twr : Except TweepyError Nat)
    (vid nm tl : List Char)
    (hlive : check_channel_live ch fr = some (vid, nm, tl))
    (hnew : vid ∉ st.known) :
    processChannel cfg st ch fr twr =
      ((dispatchDetection cfg st ch vid nm tl twr).1,
       .checked ch :: (dispatchDetection cfg st ch vid nm tl twr).2.1,
       (dispatchDetection cfg st ch vid nm tl twr).2.2) := by
  unfold processChannel
  rw [hlive]
  dsimp only
  rw [if_neg hnew]

/-- C3: within one poll detection of a new video identifier, the identifier
is added to `known_video_ids` at trace position 1, strictly before every
rendering or sink-dispatch event of that detection (all at positions ≥ 2);
the detection path emits no secondary-completion event anywhere in the
cycle — the Threads dispatch is only started, never awaited, before the
loop moves to the next channel. -/
theorem c3_mark_known_before_dispatch (cfg : BotConfig) (st : PollState)
    (ch : List Char) (fr : FetchResult) (twr : Except TweepyError Nat)
    (vid nm tl : List Char)
    (hlive : check_channel_live ch fr = some (vid, nm, tl))
    (hnew : vid ∉ st.known) :
    (processChannel cfg st ch fr twr).2.1[1]? = some (.addKnown vid) ∧
    (∀ i e, (processChannel cfg st ch fr twr).2.1[i]? = some e →
      isDispatchEv e = true → 2 ≤ i) ∧
    vid ∈ (processChannel cfg st ch fr twr).1.known ∧
    (∀ fetch tw st2 chans v,
      PollEvent.secondaryCompleted v ∉ (check_all_channels cfg fetch tw st2 chans).2.1) := by
  rw [processChannel_eq_of_new cfg st ch fr twr vid nm tl hlive hnew]
  refine ⟨?_, ?_, ?_, ?_⟩
  · simpa using dispatchDetection_head cfg st ch vid nm tl twr
  · intro i e hget hdisp
    match i with
    | 0 =>
      simp only [List.getElem?_cons_zero, Option.some.injEq] at hget
      rw [← hget] at hdisp
      simp [isDispatchEv] at hdisp
    | 1 =>
      simp only [List.getElem?_cons_succ] at hget
      rw [dispatchDetection_head cfg st ch vid nm tl twr] at hget
      simp only [Option.some.injEq] at hget
      rw [← hget] at hdisp
      simp [isDispatchEv] at hdisp
    | (n + 2) => omega
  · rw [dispatchDetection_state]
    exact List.mem_cons_self _ _
  · intro fetch tw st2 chans v
    exact check_all_channels_no_completed cfg fetch tw st2 chans v

/-- C3 witness: the detection of `"abc12345678"`, its full trace (dedup mark
at position 1, rendering and both sink dispatches strictly after), and the
id present in the known set when the step returns. -/
theorem c3_mark_known_before_dispatch_witness :
    (processChannel sampleCfg ⟨[]⟩ (str "UCx") (.ok liveResp) (.ok 7)).2.1
      = [.checked (str "UCx"), .addKnown (str "abc12345678"),
         .renderMsg (str "abc12345678"), .dispatchPrimary (str "abc12345678") true,
         .startSecondary (str "abc12345678")] ∧
    (processChannel sampleCfg ⟨[]⟩ (str "UCx") (.ok liveResp) (.ok 7)).2.1[1]?
      = some (.addKnown (str "abc12345678")) ∧
    str "abc12345678" ∈ (processChannel sampleCfg ⟨[]⟩ (str "UCx") (.ok liveResp) (.ok 7)).1.known :=
  ⟨by decide,
   (c3_mark_known_before_dispatch sampleCfg ⟨[]⟩ (str "UCx") (.ok liveResp) (.ok 7)
     (str "abc12345678") (str "UCx") (str "Live Stream") (by decide) (by decide)).1,
   (c3_mark_known_before_dispatch sampleCfg ⟨[]⟩ (str "UCx") (.ok liveResp) (.ok 7)
     (str "abc12345678") (str "UCx") (str "Live Stream") (by decide) (by decide)).2.2.1⟩

/-! ### C6 -/

theorem dispatchDetection_twr_indep (cfg : BotConfig) (st : PollState)
    (ch vid nm tl : List Char) (twr twr' : Except TweepyError Nat) :
    (dispatchDetection cfg st ch vid nm tl twr).1
      = (dispatchDetection cfg st ch vid nm tl twr').1 ∧
    (dispatchDetection cfg st ch vid nm tl twr).2.2
      = (dispatchDetection cfg st ch vid nm tl twr').2.2 ∧
    (dispatchDetection cfg st ch vid nm tl twr).2.1.map eraseFlag
      = (dispatchDetection cfg st ch vid nm tl twr').2.1.map eraseFlag := by
  unfold dispatchDetection
  dsimp only
  repeat' split
  all_goals simp [eraseFlag]

theorem processChannel_twr_indep (cfg : BotConfig) (st : PollState)
    (ch : List Char) (fr : FetchResult) (twr twr' : Except TweepyError Nat) :
    (processChannel cfg st ch fr twr).1 = (processChannel cfg st ch fr twr').1 ∧
    (processChannel cfg st ch fr twr).2.2 = (processChannel cfg st ch fr twr').2.2 ∧
    (processChannel cfg st ch fr twr).2.1.map eraseFlag
      = (processChannel cfg st ch fr twr').2.1.map eraseFlag := by
  unfold processChannel
  split
  · exact ⟨rfl, rfl, rfl⟩
  · split
    · exact ⟨rfl, rfl, rfl⟩
    · rename_i vnt vid nm tl heq hnot
      obtain ⟨e1, e2, e3⟩ := dispatchDetection_twr_indep cfg st ch vid nm tl twr twr'
      exact ⟨e1, e2, by simp [eraseFlag, e3]⟩

theorem check_all_channels_tw_indep (cfg : BotConfig)
    (fetch : List Char → FetchResult) (tw tw' : List Char → Except TweepyError Nat)
    (st : PollState) (chans : List (List Char)) :
    (check_all_channels cfg fetch tw st chans).1
      = (check_all_channels cfg fetch tw' st chans).1 ∧
    (check_all_channels cfg fetch tw st chans).2.2
      = (check_all_channels cfg fetch tw' st chans).2.2 ∧
    (check_all_channels cfg fetch tw st chans).2.1.map eraseFlag
      = (check_all_channels cfg fetch tw' st chans).2.1.map eraseFlag := by
  induction chans generalizing st with
  | nil => exact ⟨rfl, rfl, rfl⟩
  | cons ch rest ih =>
    unfold check_all_channels
    dsimp only
    obtain ⟨e1, e2, e3⟩ := processChannel_twr_indep cfg st ch (fetch ch) (tw ch) (tw' ch)
    rw [e1, e2]
    split
    · exact ⟨rfl, rfl, e3⟩
    · obtain ⟨f1, f2, f3⟩ := ih ((processChannel cfg st ch (fetch ch) (tw' ch)).1)
      exact ⟨f1, f2, by simp only [List.map_append, e3, f3]⟩

theorem on_stream_online_twr_indep (cfg : BotConfig) (channel_name : List Char)
    (meta : Except Unit (Option StreamData)) (twr twr' : Except TweepyError Nat) :
    (on_stream_online cfg channel_name meta twr).2
      = (on_stream_online cfg channel_name meta twr').2 ∧
    (on_stream_online cfg channel_name meta twr).1.map eraseFlagT
      = (on_stream_online cfg channel_name meta twr').1.map eraseFlagT := by
  unfold on_stream_online
  dsimp only
  repeat' split
  all_goals simp [eraseFlagT]

/-- C6: a primary-sink failure of any class (including the permission error
`tweepy.errors.Forbidden`) is absorbed by `post_tweet`, which reports `None`
instead of propagating; the resulting detection state, the raised flag, the
whole cycle, and the push callback are identical — modulo the primary
success flag itself — to what a successful post would have produced, so the
secondary Threads dispatch is still started and the detection loop is
unaffected.  Concretely, a detection whose post raises the permission error
still starts the secondary dispatch. -/
theorem c6_primary_failure_never_blocks_secondary (cfg : BotConfig) (st : PollState)
    (ch : List Char) (fr : FetchResult) (e : TweepyError)
    (twr : Except TweepyError Nat) (fetch : List Char → FetchResult)
    (tw : List Char → Except TweepyError Nat) (chans : List (List Char))
    (meta : Except Unit (Option StreamData)) :
    post_tweet (Except.error e) = none ∧
    ((processChannel cfg st ch fr (.error e)).1 = (processChannel cfg st ch fr twr).1 ∧
     (processChannel cfg st ch fr (.error e)).2.2 = (processChannel cfg st ch fr twr).2.2 ∧
     (processChannel cfg st ch fr (.error e)).2.1.map eraseFlag
       = (processChannel cfg st ch fr twr).2.1.map eraseFlag) ∧
    ((check_all_channels cfg fetch (fun _ => .error e) st chans).1
       = (check_all_channels cfg fetch tw st chans).1 ∧
     (check_all_channels cfg fetch (fun _ => .error e) st chans).2.1.map eraseFlag
       = (check_all_channels cfg fetch tw st chans).2.1.map eraseFlag) ∧
    ((on_stream_online cfg ch meta (.error e)).2 = (on_stream_online cfg ch meta twr).2 ∧
     (on_stream_online cfg ch meta (.error e)).1.map eraseFlagT
       = (on_stream_online cfg ch meta twr).1.map eraseFlagT) ∧
    PollEvent.startSecondary (str "abc12345678")
      ∈ (processChannel sampleCfg ⟨[]⟩ (str "UCx") (.ok liveResp) (.error .forbidden)).2.1 ∧
    TwitchEvent.startSecondaryT
      ∈ (on_stream_online sampleCfg (str "alice") (.error ()) (.error .forbidden)).1 := by
  refine ⟨rfl, processChannel_twr_indep cfg st ch fr _ twr, ?_,
    on_stream_online_twr_indep cfg ch meta _ twr, by decide, by decide⟩
  obtain ⟨f1, _, f3⟩ := check_all_channels_tw_indep cfg fetch (fun _ => .error e) tw st chans
  exact ⟨f1, f3⟩

/-! ### C7 -/

theorem youtubeLoop_length (cfg : BotConfig) (st : PollState)
    (cycles : List ((List Char → FetchResult) × (List Char → Except TweepyError Nat))) :
    (youtubeLoop cfg st cycles).2.length = cycles.length := by
  induction cycles generalizing st with
  | nil => rfl
  | cons c rest ih =>
    unfold youtubeLoop
    dsimp only
    simp [ih]

/-- C7: a per-channel failure (the fetch raising inside
`check_channel_live`'s `try`) is absorbed: the channel yields "not live",
the cycle's state is untouched, and the remaining channels of the cycle are
processed exactly as they would have been; and the polling loop runs every
scheduled cycle no matter what each cycle produced. -/
theorem c7_channel_failure_isolated (cfg : BotConfig)
    (fetch : List Char → FetchResult) (tw : List Char → Except TweepyError Nat)
    (st : PollState) (ch : List Char) (rest : List (List Char))
    (cycles : List ((List Char → FetchResult) × (List Char → Except TweepyError Nat)))
    (h : fetch ch = FetchResult.exn) :
    processChannel cfg st ch (fetch ch) (tw ch) = (st, [.checked ch], false) ∧
    check_all_channels cfg fetch tw st (ch :: rest)
      = ((check_all_channels cfg fetch tw st rest).1,
         .checked ch :: (check_all_channels cfg fetch tw st rest).2.1,
         (check_all_channels cfg fetch tw st rest).2.2) ∧
    (youtubeLoop cfg st cycles).2.length = cycles.length := by
  have hp : processChannel cfg st ch (fetch ch) (tw ch) = (st, [.checked ch], false) := by
    rw [h]; rfl
  refine ⟨hp, ?_, youtubeLoop_length cfg st cycles⟩
  conv_lhs => unfold check_all_channels
  dsimp only
  rw [hp]
  simp

/-- C7 witness: a two-channel cycle whose first channel's fetch raises —
the second channel is still checked, and a two-cycle loop schedule yields
two cycle traces. -/
theorem c7_channel_failure_isolated_witness :
    check_all_channels sampleCfg
        (fun ch => if ch = str "UCx" then FetchResult.exn else .ok noMarkerResp)
        (fun _ => .ok 7) ⟨[]⟩ [str "UCx", str "UCy"]
      = (⟨[]⟩, [.checked (str "UCx"), .checked (str "UCy")], false) ∧
    (youtubeLoop sampleCfg ⟨[]⟩
        [(fun _ => FetchResult.exn, fun _ => .ok 7),
         (fun _ => FetchResult.exn, fun _ => .ok 7)]).2.length = 2 :=
  ⟨by decide,
   (c7_channel_failure_isolated sampleCfg (fun _ => FetchResult.exn) (fun _ => .ok 7)
     ⟨[]⟩ (str "UCx") []
     [(fun _ => FetchResult.exn, fun _ => .ok 7),
      (fun _ => FetchResult.exn, fun _ => .ok 7)] rfl).2.2⟩

/-! ### C4 -/

/-- C4: the registry lookup is total and bounds-safe — within bounds it
returns the configured entry, each list defaulting independently beyond its
own length to `"fans"` / `"Streamer{i}"`; and the spec scenario (display
names `["Alice"]`, fan labels `[]`) resolves index 0 to fan label `"fans"`
with display name `"Alice"`, and index 1 to `"fans"` / `"Streamer1"`. -/
theorem c4_registry_bounds_safe (fannames displays : List (List Char)) (i : Nat) :
    (∀ (hf : i < fannames.length),
      (get_streamer_info fannames displays i).1 = fannames.get ⟨i, hf⟩) ∧
    (fannames.length ≤ i → (get_streamer_info fannames displays i).1 = str "fans") ∧
    (∀ (hd : i < displays.length),
      (get_streamer_info fannames displays i).2 = displays.get ⟨i, hd⟩) ∧
    (displays.length ≤ i →
      (get_streamer_info fannames displays i).2 = str "Streamer" ++ (Nat.repr i).data) ∧
    get_streamer_info [] [str "Alice"] 0 = (str "fans", str "Alice") ∧
    get_streamer_info [] [str "Alice"] 1 = (str "fans", str "Streamer1") := by
  refine ⟨?_, ?_, ?_, ?_, by decide, by decide⟩
  · intro hf; simp [get_streamer_info, hf]
  · intro hf; simp [get_streamer_info, Nat.not_lt.mpr hf]
  · intro hd; simp [get_streamer_info, hd]
  · intro hd; simp [get_streamer_info, Nat.not_lt.mpr hd]

/-- C4 witness: the general parts applied at the scenario lists. -/
theorem c4_registry_bounds_safe_witness :
    (get_streamer_info [] [str "Alice"] 1).1 = str "fans" ∧
    (get_streamer_info [] [str "Alice"] 0).2 = [str "Alice"].get ⟨0, by decide⟩ ∧
    (get_streamer_info [] [str "Alice"] 1).2 = str "Streamer" ++ (Nat.repr 1).data :=
  ⟨(c4_registry_bounds_safe [] [str "Alice"] 1).2.1 (by decide),
   (c4_registry_bounds_safe [] [str "Alice"] 0).2.2.1 (by decide),
   (c4_registry_bounds_safe [] [str "Alice"] 1).2.2.2.1 (by decide)⟩

/-! ### C5 -/

theorem refNames_lit (c : Char) (ts : List Tok) :
    refNames (.lit c :: ts) = refNames ts := by
  simp [refNames]

theorem refNames_field (n : List Char) (ts : List Tok) :
    refNames (.field n :: ts) = n :: refNames ts := by
  simp [refNames]

theorem isOkR_map (x : Except FormatError (List Char)) (f : List Char → List Char) :
    isOkR (x.map f) = isOkR x := by
  cases x <;> rfl

theorem substToks_isOk_iff (fields : List (List Char × List Char)) (ts : List Tok) :
    isOkR (substToks fields ts) = true ↔
      ∀ n ∈ refNames ts, (lookupAssoc n fields).isSome := by
  induction ts with
  | nil => simp [substToks, refNames, isOkR]
  | cons t ts ih =>
    cases t with
    | lit c =>
      rw [refNames_lit]
      simpa only [substToks, isOkR_map] using ih
    | field n =>
      rw [refNames_field]
      cases hl : lookupAssoc n fields with
      | none => simp [substToks, hl, isOkR]
      | some v => simp [substToks, hl, isOkR_map, ih]

theorem substToks_error_missing (fields : List (List Char × List Char))
    (ts : List Tok) (err : FormatError)
    (h : substToks fields ts = .error err) :
    ∃ n, err = .missingField n ∧ n ∈ refNames ts ∧ lookupAssoc n fields = none := by
  induction ts with
  | nil => exact absurd h (by simp [substToks])
  | cons t ts ih =>
    cases t with
    | lit c =>
      rw [refNames_lit]
      cases hr : substToks fields ts with
      | ok v => rw [substToks, hr] at h; exact absurd h (by simp [Except.map])
      | error e =>
        rw [substToks, hr] at h
        simp only [Except.map] at h
        cases h
        exact ih hr
    | field n =>
      rw [refNames_field]
      cases hl : lookupAssoc n fields with
      | none =>
        rw [substToks, hl] at h
        cases h
        exact ⟨n, rfl, List.mem_cons_self _ _, hl⟩
      | some v =>
        rw [substToks, hl] at h
        cases hr : substToks fields ts with
        | ok w => rw [hr] at h; exact absurd h (by simp [Except.map])
        | error e =>
          rw [hr] at h
          simp only [Except.map] at h
          cases h
          obtain ⟨m, h1, h2, h3⟩ := ih hr
          exact ⟨m, h1, List.mem_cons_of_mem _ h2, h3⟩

/-- C5: for a template that scans to token list `toks`, rendering succeeds
exactly when every referenced placeholder is present in the field mapping
(extra unused fields never matter), and every failure is a
missing-field error naming a referenced placeholder absent from the
mapping. -/
theorem c5_render_missing_field_exact (t : List Char) (toks : List Tok)
    (fields : List (List Char × List Char))
    (hscan : scanTmpl t none = some toks) :
    (isOkR (renderTmpl t fields) = true ↔
      ∀ n ∈ refNames toks, (lookupAssoc n fields).isSome) ∧
    (∀ err, renderTmpl t fields = .error err →
      ∃ n, err = .missingField n ∧ n ∈ refNames toks ∧ lookupAssoc n fields = none) ∧
    ((∃ n ∈ refNames toks, lookupAssoc n fields = none) →
      ∃ n, renderTmpl t fields = .error (.missingField n) ∧
        n ∈ refNames toks ∧ lookupAssoc n fields = none) := by
  have hrend : renderTmpl t fields = substToks fields toks := by
    unfold renderTmpl
    rw [hscan]
  refine ⟨hrend ▸ substToks_isOk_iff fields toks,
    fun err herr => substToks_error_missing fields toks err (hrend ▸ herr), ?_⟩
  intro hmiss
  cases hr : substToks fields toks with
  | ok v =>
    exfalso
    obtain ⟨n, hn, hnone⟩ := hmiss
    have := (substToks_isOk_iff fields toks).mp (by rw [hr]; rfl) n hn
    rw [hnone] at this
    exact absurd this (by simp)
  | error e =>
    obtain ⟨n, h1, h2, h3⟩ := substToks_error_missing fields toks e hr
    exact ⟨n, by rw [hrend, hr, h1], h2, h3⟩

/-- The spec-scenario template `"\x7bdisplay_name\x7d live: \x7btitle\x7d"`. -/
def demoTmpl : List Char := str "{display_name} live: {title}"

/-- The token list `demoTmpl` scans to. -/
def demoToks : List Tok :=
  [.field (str "display_name"), .lit ' ', .lit 'l', .lit 'i', .lit 'v', .lit 'e',
   .lit ':', .lit ' ', .field (str "title")]

/-- C5 witness: the scenario template with full fields (plus an unused
extra) renders `"Alice live: Speedrun"`; dropping `title` fails with a
missing-field error naming `title`. -/
theorem c5_render_missing_field_exact_witness :
    renderTmpl demoTmpl
        [(str "display_name", str "Alice"), (str "title", str "Speedrun"),
         (str "unused", str "x")] = .ok (str "Alice live: Speedrun") ∧
    isOkR (renderTmpl demoTmpl
        [(str "display_name", str "Alice"), (str "title", str "Speedrun"),
         (str "unused", str "x")]) = true ∧
    (∃ n, renderTmpl demoTmpl [(str "display_name", str "Alice")]
        = .error (.missingField n) ∧ n ∈ refNames demoToks ∧
        lookupAssoc n [(str "display_name", str "Alice")] = none) :=
  ⟨by rfl,
   (c5_render_missing_field_exact demoTmpl demoToks
       [(str "display_name", str "Alice"), (str "title", str "Speedrun"),
        (str "unused", str "x")] (by decide)).1.mpr (by decide),
   (c5_render_missing_field_exact demoTmpl demoToks
       [(str "display_name", str "Alice")] (by decide)).2.2
     ⟨str "title", by decide, by decide⟩⟩

/-! ### C8 -/

/-- A configuration using the source's default templates (no Threads sinks). -/
def defaultCfg : BotConfig :=
  ⟨[str "army"], [str "Alice"], [str "alice"], [str "UCx"],
   defaultTwitchTemplate, defaultYoutubeTemplate, [], []⟩

theorem on_stream_online_meta_event (cfg : BotConfig) (ch : List Char)
    (meta : Except Unit (Option StreamData)) (twr : Except TweepyError Nat) :
    (on_stream_online cfg ch meta twr).1[1]?
      = some (.metaResolved (streamMeta meta).1 (streamMeta meta).2) := by
  unfold on_stream_online
  dsimp only
  repeat' split
  all_goals rfl

theorem on_stream_online_dispatch_of_ok (cfg : BotConfig) (ch : List Char)
    (meta : Except Unit (Option StreamData)) (twr : Except TweepyError Nat)
    (h : (on_stream_online cfg ch meta twr).2 = false) :
    ∃ b, TwitchEvent.dispatchPrimaryT b ∈ (on_stream_online cfg ch meta twr).1 := by
  unfold on_stream_online at h ⊢
  dsimp only at h ⊢
  repeat' split at h
  all_goals simp_all

set_option maxRecDepth 8192 in
/-- C8: a failed or empty live-metadata lookup yields the placeholder pair
`("Live now!", "Unknown")`, the event is not dropped (whenever no template
error is raised the notification is still dispatched), a falsy `game_name`
is replaced by `"Unknown"`, and with the source's default template the
whole callback renders and posts the placeholder notification. -/
theorem c8_metadata_fallback_not_dropped (cfg : BotConfig) (ch : List Char)
    (twr : Except TweepyError Nat) (meta : Except Unit (Option StreamData))
    (d : StreamData) :
    ((meta = .error () ∨ meta = .ok none) →
      streamMeta meta = (str "Live now!", str "Unknown") ∧
      (on_stream_online cfg ch meta twr).1[1]?
        = some (.metaResolved (str "Live now!") (str "Unknown"))) ∧
    ((on_stream_online cfg ch meta twr).2 = false →
      ∃ b, TwitchEvent.dispatchPrimaryT b ∈ (on_stream_online cfg ch meta twr).1) ∧
    ((d.game_name = none ∨ d.game_name = some []) →
      streamMeta (.ok (some d)) = (d.title, str "Unknown")) ∧
    (on_stream_online defaultCfg (str "alice") (.error ()) (.ok 5)).1
      = [.streamStarted (str "alice"), .metaResolved (str "Live now!") (str "Unknown"),
         .renderT, .dispatchPrimaryT true] := by
  refine ⟨?_, on_stream_online_dispatch_of_ok cfg ch meta twr, ?_, by decide⟩
  · intro hm
    have hsm : streamMeta meta = (str "Live now!", str "Unknown") := by
      rcases hm with h | h <;> rw [h] <;> rfl
    refine ⟨hsm, ?_⟩
    rw [on_stream_online_meta_event cfg ch meta twr, hsm]
  · intro hg
    rcases hg with h | h <;> simp [streamMeta, pyOrStr, h]

set_option maxRecDepth 8192 in
/-- C8 witness: the default-template callback under a metadata lookup
failure — placeholders substituted, notification dispatched. -/
theorem c8_metadata_fallback_not_dropped_witness :
    streamMeta (.error ()) = (str "Live now!", str "Unknown") ∧
    (∃ b, TwitchEvent.dispatchPrimaryT b
      ∈ (on_stream_online defaultCfg (str "alice") (.error ()) (.ok 5)).1) ∧
    streamMeta (.ok (some ⟨str "T", some []⟩)) = (str "T", str "Unknown") :=
  ⟨((c8_metadata_fallback_not_dropped defaultCfg (str "alice") (.ok 5) (.error ())
      ⟨str "T", some []⟩).1 (Or.inl rfl)).1,
   (c8_metadata_fallback_not_dropped defaultCfg (str "alice") (.ok 5) (.error ())
      ⟨str "T", some []⟩).2.1 (by decide),
   (c8_metadata_fallback_not_dropped defaultCfg (str "alice") (.ok 5) (.error ())
      ⟨str "T", some []⟩).2.2.1 (Or.inr rfl)⟩

/-! ### C9 -/

/-- C9: a missing required setting makes startup exit with code 1 before
either monitor starts; zero resolved push channels makes the push-monitor
startup exit with code 1; a non-empty proper subset of resolved channels is
non-fatal — no exit, and the run proceeds with exactly the resolved
subset's broadcaster map. -/
theorem c9_exit_code_one_paths (cfg : EnvConfig) (channels : List (List Char))
    (users : List TwitchUser) (hasYt : Bool) :
    (missingEnv cfg ≠ [] →
      mainStartup cfg channels users hasYt = [.exitProc 1] ∧
      MainEvent.pushStartBegin ∉ mainStartup cfg channels users hasYt ∧
      MainEvent.pollMonitorStarted ∉ mainStartup cfg channels users hasYt) ∧
    (missingEnv cfg = [] → users = [] →
      mainStartup cfg channels users hasYt = [.pushStartBegin, .exitProc 1]) ∧
    (missingEnv cfg = [] → users ≠ [] →
      MainEvent.exitProc 1 ∉ mainStartup cfg channels users hasYt ∧
      (twitchStart channels users).2 = some (users.map fun u => (u.login, u.uid))) := by
  refine ⟨?_, ?_, ?_⟩
  · intro h
    unfold mainStartup
    rw [if_pos h]
    simp
  · intro h1 h2
    subst h2
    unfold mainStartup
    rw [if_neg (by simp [h1])]
    rfl
  · intro h1 h2
    constructor
    · unfold mainStartup twitchStart
      rw [if_neg (by simp [h1]), if_neg h2]
      dsimp only
      split_ifs <;> simp
    · unfold twitchStart
      rw [if_neg h2]

/-- C9 witness: a configuration missing one Twitter secret exits at once; a
complete configuration with zero resolved users exits during push startup;
with one of two channels resolved the run proceeds with that subset. -/
theorem c9_exit_code_one_paths_witness :
    mainStartup ⟨str "i", str "s", str "c", str "k", str "ks", str "t", []⟩
        [str "alice"] [⟨str "alice", str "1"⟩] true = [.exitProc 1] ∧
    mainStartup ⟨str "i", str "s", str "c", str "k", str "ks", str "t", str "ts"⟩
        [str "alice"] [] true = [.pushStartBegin, .exitProc 1] ∧
    (twitchStart [str "alice", str "bob"] [⟨str "alice", str "1"⟩]).2
      = some [(str "alice", str "1")] :=
  ⟨(c9_exit_code_one_paths ⟨str "i", str "s", str "c", str "k", str "ks", str "t", []⟩
      [str "alice"] [⟨str "alice", str "1"⟩] true).1 (by decide) |>.1,
   (c9_exit_code_one_paths ⟨str "i", str "s", str "c", str "k", str "ks", str "t", str "ts"⟩
      [str "alice"] [] true).2.1 (by decide) rfl,
   (c9_exit_code_one_paths ⟨str "i", str "s", str "c", str "k", str "ks", str "t", str "ts"⟩
      [str "alice", str "bob"] [⟨str "alice", str "1"⟩] true).2.2 (by decide)
      (by simp) |>.2⟩

/-! ### C10 -/

/-- C10: a detection for a channel absent from the configured mapping falls
back to index 0 (so the first configured streamer's fan label and display
name are used); the Twitch mapping is keyed and queried case-insensitively,
the YouTube mapping case-sensitively. -/
theorem c10_unknown_channel_index_zero (channels : List (List Char))
    (q q' : List Char) (fannames ds fs : List (List Char)) (d f : List Char) :
    (dictLookup (twitchChannelIndex channels) (toLowerL q) = none →
      twitchIdxOf channels q = 0) ∧
    (dictLookup (youtubeChannelIndex channels) q = none →
      youtubeIdxOf channels q = 0) ∧
    (toLowerL q = toLowerL q' → twitchIdxOf channels q = twitchIdxOf channels q') ∧
    (get_streamer_info fannames (d :: ds) 0).2 = d ∧
    (get_streamer_info (f :: fs) ds 0).1 = f ∧
    twitchIdxOf [str "x", str "UCabc"] (str "UCABC") = 1 ∧
    youtubeIdxOf [str "x", str "UCabc"] (str "UCabc") = 1 ∧
    youtubeIdxOf [str "x", str "UCabc"] (str "ucabc") = 0 ∧
    renderTmpl sampleCfg.twitchTemplate
        (twFields (str "zzz")
          (get_streamer_info sampleCfg.fannames sampleCfg.displayNames
            (twitchIdxOf sampleCfg.twitchChannels (str "zzz"))).2
          (str "Live now!") (str "Unknown")
          (get_streamer_info sampleCfg.fannames sampleCfg.displayNames
            (twitchIdxOf sampleCfg.twitchChannels (str "zzz"))).1)
      = .ok (str "Alice: Live now! (Unknown)") := by
  refine ⟨?_, ?_, ?_, by simp [get_streamer_info], by simp [get_streamer_info],
    by decide, by decide, by decide, by rfl⟩
  · intro h
    unfold twitchIdxOf dictGetD
    rw [h]
    rfl
  · intro h
    unfold youtubeIdxOf dictGetD
    rw [h]
    rfl
  · intro h
    unfold twitchIdxOf
    rw [h]

/-- C10 witness: `"zzz"` is not a configured Twitch login, so its index is 0
and the rendered notification names the first streamer `"Alice"`; the mixed
case query `"AlIcE"` resolves like `"alice"`. -/
theorem c10_unknown_channel_index_zero_witness :
    twitchIdxOf [str "alice"] (str "zzz") = 0 ∧
    youtubeIdxOf [str "UCx"] (str "zzz") = 0 ∧
    twitchIdxOf [str "alice"] (str "AlIcE") = twitchIdxOf [str "alice"] (str "alice") :=
  ⟨(c10_unknown_channel_index_zero [str "alice"] (str "zzz") (str "zzz") [] [] []
      [] []).1 (by decide),
   (c10_unknown_channel_index_zero [str "UCx"] (str "zzz") (str "zzz") [] [] []
      [] []).2.1 (by decide),
   (c10_unknown_channel_index_zero [str "alice"] (str "AlIcE") (str "alice") [] [] []
      [] []).2.2.1 (by decide)⟩

end Bot
